import Mathlib

/-!
Verification development for the Speak_Up repository's single script
`plot_training_metrics.py`.  The script holds a hardcoded dictionary
`data` mapping the key `'epoch'` to an epoch list and seven model names
to per-metric value lists, draws a three-panel line chart (one panel per
metric) and prints a fixed-width summary table of each series' final
metric values.

Embedding conventions:
* Every metric value in the source is a decimal literal with exactly six
  digits after the decimal point, so values are embedded exactly as
  natural numbers in micro-units (the literal times 10^6).  `2.491368`
  becomes `2491368`.  This avoids floating point while representing every
  source value exactly.
* The Python dict `data` preserves insertion order, so it is embedded as
  an association list `PyDict` whose first entry is the `'epoch'` key.
* Python's indexing `l[i]` (including negative indices such as `l[-1]`)
  is embedded as `pyGet`, returning `none` where Python raises
  `IndexError`.
* The console is modelled as the list of output lines; a `print` call
  whose argument contains an embedded newline contributes one line per
  newline-separated segment.
-/

namespace SpeakUp

/-- The three metric keys used by the script (`'loss'`, `'pesq'`, `'stoi'`). -/
inductive Metric
  | loss
  | pesq
  | stoi
deriving DecidableEq, Repr

/-- A value of the `data` dictionary: either the epoch list (under the key
`'epoch'`) or a nested dict of three metric lists (under a model name).
Metric values are exact micro-units (source literal times 10^6). -/
inductive Entry
  | epochList (l : List Nat)
  | seriesData (loss pesq stoi : List Nat)
deriving DecidableEq, Repr

/-- An insertion-ordered Python dictionary from string keys to entries. -/
abbrev PyDict := List (String × Entry)

/-- Look up a metric list inside a series entry, as `values[metric]` does;
`none` models the `TypeError` Python raises when the entry is the plain
epoch list rather than a nested dict. -/
def Entry.metric : Entry → Metric → Option (List Nat)
  | .epochList _, _ => none
  | .seriesData l _ _, .loss => some l
  | .seriesData _ p _, .pesq => some p
  | .seriesData _ _ s, .stoi => some s

/-- The hardcoded dataset of `plot_training_metrics.py` lines 6-43,
in dictionary insertion order, values in micro-units. -/
def data : PyDict :=
  [ ("epoch", .epochList [1, 5, 10, 15, 20, 25, 30]),
    ("No Preprocessing", .seriesData
      [2491368, 2128137, 2081101, 2049871, 2021986, 1998126, 1975821]
      [1110734, 1102173, 1112359, 1175780, 1116488, 1101073, 1093451]
      [346368, 498465, 558566, 489353, 477006, 470012, 450168]),
    ("MelSEGAN + VMD + VAD", .seriesData
      [2584934, 2233211, 2177864, 2136796, 2102346, 2073838, 2046205]
      [1088980, 1108260, 1101254, 1102191, 1100971, 1093437, 1127178]
      [438488, 400358, 447792, 450923, 424635, 499560, 454808]),
    ("MelSEGAN + VMD + DTW", .seriesData
      [2131643, 1736059, 1696551, 1672895, 1654387, 1640318, 1629985]
      [1099543, 1079158, 1092555, 1144524, 1097848, 1075867, 1091959]
      [595579, 597671, 614402, 640441, 627221, 616389, 616779]),
    ("MelSEGAN + VMD + DTW + MAML", .seriesData
      [1811897, 1475650, 1442068, 1421961, 1406229, 1394270, 1385487]
      [1319452, 1294990, 1311066, 1373429, 1317418, 1291040, 1310351]
      [536021, 537904, 552962, 576397, 564499, 554750, 555101]),
    ("MelSEGAN + VAD + VMD + MAML", .seriesData
      [1938700, 1674908, 1633398, 1602597, 1576759, 1555378, 1534654]
      [1143429, 1163673, 1156317, 1157301, 1156020, 1148109, 1183537]
      [306942, 280251, 313454, 315646, 297244, 349692, 318366]),
    ("UNet + HiFigan + VMD + VAD", .seriesData
      [1943267, 1659947, 1623259, 1598899, 1577149, 1558538, 1541140]
      [1277344, 1267499, 1279213, 1352147, 1283961, 1266234, 1257469]
      [374077, 538342, 603251, 528501, 515166, 507613, 486181]),
    ("UNet + HiFigan + VMD + DTW", .seriesData
      [1793785, 1532259, 1498393, 1475907, 1455830, 1438651, 1422591]
      [1332881, 1322608, 1334831, 1410936, 1339786, 1321288, 1312141]
      [387932, 558281, 625594, 548075, 534247, 526413, 504188]) ]

/-- The color palette of line 60. -/
def colors : List String :=
  ["#1f77b4", "#ff7f0e", "#2ca02c", "#d62728", "#9467bd", "#8c564b", "#e377c2"]

/-- The line styles of line 61 (dashes intended for the UNet variants). -/
def line_styles : List String :=
  ["-", "-", "-", "-", "-", "--", "--"]

/-- Python list indexing: nonnegative indices address from the front,
negative indices address from the back, out-of-range gives `none`
(Python raises `IndexError`). -/
def pyGet {α : Type} (l : List α) (i : Int) : Option α :=
  if 0 ≤ i then l.get? i.toNat
  else if (-i).toNat ≤ l.length then l.get? (l.length - (-i).toNat)
  else none

/-- Left-pad a character list with a filler up to a width (no-op when the
content is already at least that wide). -/
def padLeft (w : Nat) (c : Char) (s : List Char) : List Char :=
  List.replicate (w - s.length) c ++ s

/-- A string of `n` repetitions of one character, as in `"-" * 80`. -/
def repChar (c : Char) (n : Nat) : String :=
  String.mk (List.replicate n c)

/-- Python format spec `{x:<w}`: left-align in width `w`, padding with
spaces on the right, never truncating. -/
def alignLeft (w : Nat) (s : String) : String :=
  String.mk (s.data ++ List.replicate (w - s.length) ' ')

/-- Python format spec `{x:>w}`: right-align in width `w`, padding with
spaces on the left, never truncating. -/
def alignRight (w : Nat) (s : String) : String :=
  String.mk (padLeft w ' ' s.data)

/-- Python format spec `{x:.3f}` applied to a nonnegative value given in
micro-units: round to the nearest thousandth and render with exactly three
digits after the decimal point.  Ties round away from zero here; no literal
in the repository's dataset lies on a half-thousandth boundary, so this
agrees with CPython's rendering of the corresponding double on every value
the script formats. -/
def fmt3 (micro : Nat) : String :=
  let milli := (micro + 500) / 1000
  String.mk ((toString (milli / 1000)).data ++ ('.' :: padLeft 3 '0' (toString (milli % 1000)).data))

/-- The separator rule `"-" * 80` of lines 91, 93 and 97. -/
def rule80 : String := repChar '-' 80

/-- The header line of line 92. -/
def headerLine : String :=
  alignLeft 30 "Model" ++ " " ++ alignRight 10 "Loss" ++ " " ++
    alignRight 10 "PESQ" ++ " " ++ alignRight 10 "STOI"

/-- One summary-table data row (the f-string of line 96): the model name
left-aligned in width 30, then each metric's `[-1]` element formatted
`>10.3f`, with single spaces between fields.  `none` models the exception
Python raises before printing the row (an `IndexError` from `[-1]` on an
empty list, or a `TypeError` when the entry is not a nested dict). -/
def rowString (name : String) (e : Entry) : Option String := do
  let l ← e.metric .loss
  let p ← e.metric .pesq
  let s ← e.metric .stoi
  let lv ← pyGet l (-1)
  let pv ← pyGet p (-1)
  let sv ← pyGet s (-1)
  pure (alignLeft 30 name ++ " " ++ alignRight 10 (fmt3 lv) ++ " " ++
        alignRight 10 (fmt3 pv) ++ " " ++ alignRight 10 (fmt3 sv))

/-- The summary print loop of lines 94-96: one row per non-`'epoch'` entry
in dictionary order.  Returns the rows printed and whether the loop died
with an exception (in which case the rows printed before the failure are
kept and nothing after them is printed). -/
def reporterLoop : PyDict → List String × Bool
  | [] => ([], false)
  | (name, e) :: rest =>
    if name = "epoch" then reporterLoop rest
    else
      match rowString name e with
      | none => ([], true)
      | some r => (r :: (reporterLoop rest).1, (reporterLoop rest).2)

/-- The full console output of lines 90-97 as a list of lines: the title
print (whose leading `"\n"` contributes an initial empty line), a rule, the
header, a rule, the data rows, and — when the loop did not die — the
closing rule.  The boolean reports whether the run raised an exception. -/
def reporterOutput (d : PyDict) : List String × Bool :=
  (["", "Final Metrics (at Epoch 30):", rule80, headerLine, rule80] ++
     (reporterLoop d).1 ++ (if (reporterLoop d).2 then [] else [rule80]),
   (reporterLoop d).2)

/-- One plotted line of a panel: the keyword and positional arguments the
script passes to `axes[idx].plot` on lines 70-74. -/
structure LineSpec where
  x : List Nat
  y : List Nat
  label : String
  color : String
  linestyle : String
deriving DecidableEq, Repr

/-- One chart panel: its plotted lines and the decoration applied on
lines 76-81 (title, axis labels, grid, legend labels, x-axis limits). -/
structure Panel where
  lines : List LineSpec
  title : String
  xlabel : String
  ylabel : String
  grid : Bool
  legendLabels : List String
  xlim : Int × Int
deriving DecidableEq, Repr

/-- Modelled from the spec: the plotting-library call `axes[idx].plot`
is external library code not present under src/; per §4.2 of the spec the
render "fails with a rendering error if any series has mismatched sequence
lengths", so the call yields an error exactly when the x and y sequences
differ in length and otherwise records the line. -/
def plotCall (x y : List Nat) (label color linestyle : String) :
    Except String LineSpec :=
  if x.length = y.length then
    .ok { x := x, y := y, label := label, color := color, linestyle := linestyle }
  else
    .error "rendering error: x and y must have same first dimension"

/-- The inner plot loop of lines 68-74 for one panel, with the enumeration
counter `i` running over ALL dictionary entries (the `'epoch'` entry
included, though skipped by the guard `model != 'epoch'`): each plotted
series uses `colors[i-1]` / `line_styles[i-1]` with Python indexing. -/
def plotSeriesLoop (cs ls : List String) (epochs : List Nat) (m : Metric) :
    Nat → PyDict → Except String (List LineSpec)
  | _, [] => .ok []
  | i, (name, e) :: rest =>
    if name = "epoch" then plotSeriesLoop cs ls epochs m (i + 1) rest
    else do
      let ys ← (e.metric m).elim (Except.error "TypeError") Except.ok
      let c ← (pyGet cs ((i : Int) - 1)).elim (Except.error "IndexError") Except.ok
      let st ← (pyGet ls ((i : Int) - 1)).elim (Except.error "IndexError") Except.ok
      let line ← plotCall epochs ys name c st
      let restLines ← plotSeriesLoop cs ls epochs m (i + 1) rest
      pure (line :: restLines)

/-- The panel titles of line 64. -/
def titles : List String := ["Training Loss", "PESQ Score", "STOI Score"]

/-- The y-axis labels of line 65. -/
def ylabels : List String := ["Loss", "PESQ", "STOI"]

/-- One panel of the outer loop (lines 67-81): plot every non-`'epoch'`
series against `data['epoch']`, then set the title, the x label `'Epoch'`,
the y label, the grid, the legend (matplotlib lists the plotted labels in
plotting order) and the hardcoded x limits `(0, 30)` of line 81. -/
def mkPanel (cs ls : List String) (d : PyDict) (epochs : List Nat)
    (m : Metric) (title ylabel : String) : Except String Panel := do
  let lns ← plotSeriesLoop cs ls epochs m 0 d
  pure { lines := lns, title := title, xlabel := "Epoch", ylabel := ylabel,
         grid := true, legendLabels := lns.map LineSpec.label, xlim := (0, 30) }

/-- The chart renderer (lines 56-86), generalized over the palette and
style lists: it reads `data['epoch']` and builds the three panels in the
order loss, PESQ, STOI.  An error anywhere aborts the run before the image
file is written (the `savefig` of line 86 runs only after all panels are
built). -/
def renderPanelsWith (cs ls : List String) (d : PyDict) :
    Except String (List Panel) := do
  let epochs ← match d.lookup "epoch" with
    | some (.epochList l) => Except.ok l
    | _ => Except.error "KeyError"
  let p0 ← mkPanel cs ls d epochs .loss "Training Loss" "Loss"
  let p1 ← mkPanel cs ls d epochs .pesq "PESQ Score" "PESQ"
  let p2 ← mkPanel cs ls d epochs .stoi "STOI Score" "STOI"
  pure [p0, p1, p2]

/-- The renderer with the script's own palette and style lists. -/
def renderPanels (d : PyDict) : Except String (List Panel) :=
  renderPanelsWith colors line_styles d

/-- The series entries of a dataset: the dictionary entries other than
`'epoch'`, in insertion order. -/
def seriesEntries (d : PyDict) : PyDict :=
  d.filter (fun p => p.1 ≠ "epoch")

/-- Follows the spec's words for a summary row, as a refinement reference:
for each metric the row shows the LAST element of that series' metric
sequence (`List.getLast?`) rendered to 3 decimal places in the fixed-width
layout; it is compared against the source-derived `rowString` output. -/
def rowFromLastSpec (name : String) (e : Entry) : Option String :=
  match e with
  | .epochList _ => none
  | .seriesData l p s => do
    let lv ← l.getLast?
    let pv ← p.getLast?
    let sv ← s.getLast?
    pure (alignLeft 30 name ++ " " ++ alignRight 10 (fmt3 lv) ++ " " ++
          alignRight 10 (fmt3 pv) ++ " " ++ alignRight 10 (fmt3 sv))

/-- A well-formed numeric field of the summary table: exactly 10 characters,
right-aligned (only leading spaces, then contiguous content), the content a
number with a single decimal point and exactly three digits after it. -/
def fieldOk (cs : List Char) : Bool :=
  cs.length == 10 &&
  (let t := cs.dropWhile (fun c => c == ' ')
   !t.isEmpty &&
   t.all (fun c => c.isDigit || c == '.') &&
   (t.filter (fun c => c == '.')).length == 1 &&
   (t.reverse.takeWhile Char.isDigit).length == 3)

/-- A well-formed summary data row: 63 characters wide, with its three
numeric fields at offsets 31, 42 and 53 each a right-aligned 3-decimal
number in a width-10 column. -/
def rowFieldsOk (r : String) : Bool :=
  r.length == 63 &&
  fieldOk ((r.data.drop 31).take 10) &&
  fieldOk ((r.data.drop 42).take 10) &&
  fieldOk ((r.data.drop 53).take 10)

/-- Decidable form of "every series entry holds three nonempty metric
sequences" (lengths may still disagree with each other or with the epoch
sequence). -/
def allMetricsNonempty (d : PyDict) : Bool :=
  (seriesEntries d).all fun p =>
    match p.2 with
    | .seriesData l q s => !l.isEmpty && !q.isEmpty && !s.isEmpty
    | .epochList _ => false

/-- A dataset realizing Scenario 3 of the spec: the single series' `loss`
sequence is one element shorter than its `pesq` sequence. -/
def mismatchData : PyDict :=
  [ ("epoch", .epochList [1, 5, 10, 15, 20, 25, 30]),
    ("Broken", .seriesData
      [2491368, 2128137, 2081101, 2049871, 2021986, 1998126]
      [1110734, 1102173, 1112359, 1175780, 1116488, 1101073, 1093451]
      [346368, 498465, 558566, 489353, 477006, 470012, 450168]) ]

/-- A dataset whose single series has an empty `loss` sequence. -/
def emptyLossData : PyDict :=
  [ ("epoch", .epochList [1]),
    ("Empty", .seriesData [] [1000000] [500000]) ]

/-- A small well-formed dataset whose last epoch is 7, not 30. -/
def lastEpoch7Data : PyDict :=
  [ ("epoch", .epochList [1, 3, 7]),
    ("Tiny", .seriesData [500000, 400000, 300000]
      [1100000, 1200000, 1300000] [400000, 500000, 600000]) ]

/-- One program run, generalized over the palette and style lists and
parameterized by a run identifier: the source reads no ambient input (no
randomness, clock, environment or command line), so the identifier is
unused and two runs on the same inputs are the same pure computation
producing the panel list (the data-to-visual mapping: line positions,
labels, legend entries, colors, styles) and the console output. -/
def programRunWith (cs ls : List String) (d : PyDict) (_run : Nat) :
    Except String (List Panel) × (List String × Bool) :=
  (renderPanelsWith cs ls d, reporterOutput d)

/-- The renderer as a state-passing step over the dataset: every statement
of the plot loop (lines 67-81) only reads `data` (`data.items()`,
`values[metric]`, `data['epoch']`) and writes to figure state, so the step
returns the dataset unchanged alongside its output. -/
def rendererStep (d : PyDict) : Except String (List Panel) × PyDict :=
  (renderPanels d, d)

/-- The reporter as a state-passing step over the dataset: every statement
of the summary loop (lines 90-97) only reads `data` and writes to standard
output, so the step returns the dataset unchanged alongside its output. -/
def reporterStep (d : PyDict) : (List String × Bool) × PyDict :=
  (reporterOutput d, d)

/-! Helper lemmas (shared; not tied to a single claim). -/

/-- Python's `l[-1]` is the last element of the list. -/
theorem pyGet_neg_one {α : Type} (l : List α) : pyGet l (-1) = l.getLast? := by
  unfold pyGet
  rw [if_neg (by decide)]
  cases l with
  | nil => rw [if_neg (by simp)]; rfl
  | cons a t =>
    rw [if_pos (by simp)]
    rw [List.get?_eq_getElem?]
    exact (List.getLast?_eq_getElem? _).symm

/-- The source's row construction coincides with the spec's description
("the last element of that series' metric sequence rendered to 3 decimal
places") on every entry. -/
theorem rowString_eq_spec (name : String) (e : Entry) :
    rowString name e = rowFromLastSpec name e := by
  cases e with
  | epochList l => rfl
  | seriesData l p s =>
    simp [rowString, rowFromLastSpec, Entry.metric, pyGet_neg_one]

/-- A summary row exists for every series entry whose metric sequences are
all nonempty. -/
theorem rowString_isSome (name : String) (l p s : List Nat)
    (hl : l ≠ []) (hp : p ≠ []) (hs : s ≠ []) :
    (rowString name (Entry.seriesData l p s)).isSome := by
  rw [rowString_eq_spec]
  simp only [rowFromLastSpec]
  obtain ⟨lv, hlv⟩ := Option.isSome_iff_exists.mp (List.getLast?_isSome.mpr hl)
  obtain ⟨pv, hpv⟩ := Option.isSome_iff_exists.mp (List.getLast?_isSome.mpr hp)
  obtain ⟨sv, hsv⟩ := Option.isSome_iff_exists.mp (List.getLast?_isSome.mpr hs)
  simp [hlv, hpv, hsv]

/-- When every series entry has nonempty metric sequences (even with
mismatched lengths), the summary loop finishes without an exception and
prints exactly one row per series entry. -/
theorem reporterLoop_complete :
    ∀ d : PyDict, allMetricsNonempty d = true →
      (reporterLoop d).2 = false ∧
        (reporterLoop d).1.length = (seriesEntries d).length
  | [], _ => ⟨rfl, rfl⟩
  | (name, e) :: rest, h => by
    by_cases hn : name = "epoch"
    · have hrest : allMetricsNonempty rest = true := by
        simpa [allMetricsNonempty, seriesEntries, hn] using h
      have ih := reporterLoop_complete rest hrest
      simpa [reporterLoop, seriesEntries, hn] using ih
    · have hcons : seriesEntries ((name, e) :: rest) =
          (name, e) :: seriesEntries rest := by
        simp [seriesEntries, hn]
      rw [allMetricsNonempty, hcons, List.all_cons, Bool.and_eq_true] at h
      have hrest : allMetricsNonempty rest = true := h.2
      have ih := reporterLoop_complete rest hrest
      cases e with
      | epochList l => simp at h
      | seriesData l q s =>
        have h1 := h.1
        simp only [Bool.and_eq_true, Bool.not_eq_true'] at h1
        have hl : l ≠ [] := by simpa using h1.1.1
        have hq : q ≠ [] := by simpa using h1.1.2
        have hs : s ≠ [] := by simpa using h1.2
        obtain ⟨r, hr⟩ :=
          Option.isSome_iff_exists.mp (rowString_isSome name l q s hl hq hs)
        simp only [reporterLoop, if_neg hn, hr]
        exact ⟨ih.1, by simp [hcons, ih.2]⟩

/-! Claim theorems. -/

/-- C1: for the hardcoded dataset the Reporter prints exactly one data row
per series, seven rows in insertion order, each showing for every metric
the last element of that series' metric sequence rendered to 3 decimal
places; in particular the "No Preprocessing" row shows 1.976, 1.093 and
0.450 (the 3-decimal renderings of 1.975821, 1.093451 and 0.450168). -/
theorem summary_rows_match_last_values :
    (reporterLoop data).2 = false ∧
    (reporterLoop data).1 =
      (seriesEntries data).filterMap (fun p => rowFromLastSpec p.1 p.2) ∧
    (reporterLoop data).1.length = 7 ∧
    (reporterLoop data).1.get? 0 =
      some "No Preprocessing                    1.976      1.093      0.450" := by
  refine ⟨rfl, ?_, rfl, rfl⟩
  decide

/-- C2 counterexample: on a dataset whose single series has a `loss`
sequence one element shorter than its `pesq` sequence (Scenario 3), the
Reporter raises no error at all and prints a full data row, so it is false
that "both the Renderer and the Reporter raise a DataIntegrityError before
producing any output" on every mismatched dataset. -/
theorem integrity_check_absent_cex :
    (reporterOutput mismatchData).2 = false ∧
    (reporterLoop mismatchData).1 =
      ["Broken                              1.998      1.093      0.450"] := by
  decide

/-- C2 amended: neither component validates the dataset up front.  For
every dataset whose metric sequences are all nonempty — even with length
mismatches — the Reporter completes without error, printing one row per
series (each metric's own last element); the Renderer fails only inside
the per-series plotting call when it reaches the mismatched series, after
rendering has begun (though before the image file is written, since the
save runs after all panels are built); and on an empty metric sequence the
Reporter fails mid-output, after the title block and header have already
been printed. -/
theorem reporter_prints_without_validation (d : PyDict)
    (h : allMetricsNonempty d = true) :
    (reporterOutput d).2 = false ∧
    (reporterLoop d).1.length = (seriesEntries d).length ∧
    renderPanels mismatchData =
      Except.error "rendering error: x and y must have same first dimension" ∧
    (reporterOutput emptyLossData).2 = true ∧
    (reporterOutput emptyLossData).1 =
      ["", "Final Metrics (at Epoch 30):", rule80, headerLine, rule80] := by
  refine ⟨(reporterLoop_complete d h).1, (reporterLoop_complete d h).2, ?_, ?_, ?_⟩
  · rfl
  · decide
  · decide

/-- C2 amended, witness: the amended statement instantiated at the
mismatched Scenario-3 dataset. -/
theorem reporter_prints_without_validation_witness :
    (reporterOutput mismatchData).2 = false ∧
    (reporterLoop mismatchData).1.length = (seriesEntries mismatchData).length ∧
    renderPanels mismatchData =
      Except.error "rendering error: x and y must have same first dimension" ∧
    (reporterOutput emptyLossData).2 = true ∧
    (reporterOutput emptyLossData).1 =
      ["", "Final Metrics (at Epoch 30):", rule80, headerLine, rule80] :=
  reporter_prints_without_validation mismatchData (by decide)

/-- C3: in every panel rendered from the hardcoded dataset, the series at
0-based position j in insertion order (the `'epoch'` key excluded) is
drawn with `colors[j mod 7]` and `line_styles[j mod 7]`; series 0
("No Preprocessing") gets `#1f77b4` and `-`, and series 5 and 6 (the two
UNet variants) get the dashed style. -/
theorem series_color_style_assignment :
    (match renderPanels data with
     | .ok ps =>
       ps.length == 3 && ps.all fun p =>
         p.lines.length == 7 &&
         ((List.range 7).all fun j =>
           (p.lines.get? j).elim false fun ln =>
             ((seriesEntries data).get? j).elim false (fun q => ln.label == q.1) &&
             ((colors.get? (j % colors.length)).elim false fun c => ln.color == c) &&
             ((line_styles.get? (j % line_styles.length)).elim false
               fun st => ln.linestyle == st)) &&
         ((p.lines.get? 0).elim false fun ln =>
           ln.color == "#1f77b4" && ln.linestyle == "-") &&
         ((p.lines.get? 5).elim false fun ln => ln.linestyle == "--") &&
         ((p.lines.get? 6).elim false fun ln => ln.linestyle == "--")
     | .error _ => false) = true := by
  decide

/-- C4 counterexample: the first series in insertion order is drawn with
the FIRST palette entry `#1f77b4` and the first line style `-`, not the
last entries `#e377c2` and `--`, so the claimed off-by-one wrap of
`colors[i-1]` does not occur. -/
theorem first_series_color_cex :
    (match renderPanels data with
     | .ok ps =>
       (ps.get? 0).elim false fun p =>
         (p.lines.get? 0).elim false fun ln =>
           ln.label == "No Preprocessing" &&
           ln.color == "#1f77b4" && ln.linestyle == "-" &&
           !(ln.color == "#e377c2") && !(ln.linestyle == "--")
     | .error _ => false) = true := by
  decide

/-- C4 amended: the `colors[i-1]` / `line_styles[i-1]` arithmetic is not
off-by-one in effect, because the `enumerate` index counts the `'epoch'`
key at dictionary position 0: the series at 0-based series position j has
enumeration index j+1, so every series j receives exactly entry j of the
palette and style lists (the first series the first entries, the last
series the last entries). -/
theorem color_index_compensated_by_epoch_key :
    (match renderPanels data with
     | .ok ps =>
       ps.all fun p =>
         (List.range 7).all fun j =>
           (p.lines.get? j).elim false fun ln =>
             ((seriesEntries data).get? j).elim false (fun q => ln.label == q.1) &&
             ((colors.get? j).elim false fun c => ln.color == c) &&
             ((line_styles.get? j).elim false fun st => ln.linestyle == st)
     | .error _ => false) = true := by
  decide

/-- C5 counterexample: the first panel's x-axis lower bound is the
hardcoded 0 of `set_xlim(0, 30)`, not the dataset's minimum epoch 1, so
the panel's x-axis range does not span exactly min to max epoch. -/
theorem xlim_lower_bound_cex :
    (match renderPanels data with
     | .ok ps =>
       (ps.get? 0).elim false fun p =>
         p.xlim == ((0 : Int), (30 : Int)) && !(p.xlim.1 == (1 : Int))
     | .error _ => false) = true := by
  decide

/-- C5 amended: every panel's x-axis range is the hardcoded constant
(0, 30); its upper bound happens to equal the dataset's maximum epoch 30,
but its lower bound is 0, not the minimum epoch 1. -/
theorem xlim_constant_zero_thirty :
    (match renderPanels data with
     | .ok ps => ps.all fun p => p.xlim == ((0 : Int), (30 : Int))
     | .error _ => false) = true ∧
    ([1, 5, 10, 15, 20, 25, 30] : List Nat).min? = some 1 ∧
    ([1, 5, 10, 15, 20, 25, 30] : List Nat).max? = some 30 ∧
    data.lookup "epoch" = some (Entry.epochList [1, 5, 10, 15, 20, 25, 30]) := by
  refine ⟨by decide, by decide, by decide, by decide⟩

/-- C6: the Reporter's console output is a header line with the column
titles (series name, loss, PESQ, STOI), then one fixed-width row per
series in dataset order with every numeric field rendered to exactly 3
decimal places and right-aligned in a width-10 column, the table preceded
and followed by an 80-dash separator rule. -/
theorem summary_table_layout :
    (reporterOutput data).2 = false ∧
    (reporterOutput data).1 =
      ["", "Final Metrics (at Epoch 30):", rule80, headerLine, rule80] ++
        (reporterLoop data).1 ++ [rule80] ∧
    headerLine =
      "Model                                Loss       PESQ       STOI" ∧
    rule80.data = List.replicate 80 '-' ∧
    (reporterLoop data).1.length = 7 ∧
    ((reporterLoop data).1.all rowFieldsOk) = true := by
  refine ⟨rfl, by decide, by decide, by decide, rfl, by decide⟩

/-- C7: the hardcoded dataset satisfies the data-model invariant — every
series' three metric sequences have length 7, equal to the length of the
shared epoch sequence [1, 5, 10, 15, 20, 25, 30], which is strictly
increasing (all values being exact decimal literals, embedded as exact
micro-unit naturals, hence finite by construction). -/
theorem dataset_invariant :
    data.lookup "epoch" = some (Entry.epochList [1, 5, 10, 15, 20, 25, 30]) ∧
    List.Pairwise (· < ·) ([1, 5, 10, 15, 20, 25, 30] : List Nat) ∧
    ([1, 5, 10, 15, 20, 25, 30] : List Nat).length = 7 ∧
    ((seriesEntries data).all fun p =>
      match p.2 with
      | Entry.seriesData l q s => l.length == 7 && q.length == 7 && s.length == 7
      | Entry.epochList _ => false) = true := by
  refine ⟨by decide, by decide, by decide, by decide⟩

/-- C8: the program is deterministic — two runs (modelled by distinct run
identifiers, since the source reads no ambient input) on the same dataset
and the same palette/style lists produce identical console output and an
identical data-to-visual mapping (panels with the same lines, labels,
legend entries, colors and styles). -/
theorem program_deterministic :
    ∀ (cs ls : List String) (d : PyDict) (r₁ r₂ : Nat),
      programRunWith cs ls d r₁ = programRunWith cs ls d r₂ :=
  fun _ _ _ _ _ => rfl

/-- C9: neither the Renderer nor the Reporter mutates the dataset — the
state-passing embedding of each component returns the dataset unchanged,
so after both run in sequence every series' metric sequences and the
shared epoch sequence are exactly as constructed. -/
theorem components_preserve_dataset :
    ∀ d : PyDict,
      (rendererStep d).2 = d ∧ (reporterStep (rendererStep d).2).2 = d :=
  fun _ => ⟨rfl, rfl⟩

/-- C10: the Reporter's output begins with the hardcoded title line
"Final Metrics (at Epoch 30):" (preceded only by the blank line that the
leading newline of the same print call emits) for EVERY dataset: the epoch
number in the title is a constant, so a dataset whose last epoch is 7
still gets the same title, as the concrete instance shows. -/
theorem title_line_hardcoded :
    (∀ d : PyDict,
      (reporterOutput d).1.take 2 = ["", "Final Metrics (at Epoch 30):"]) ∧
    (reporterOutput lastEpoch7Data).1 =
      ["", "Final Metrics (at Epoch 30):", rule80, headerLine, rule80,
       "Tiny                                0.300      1.300      0.600",
       rule80] := by
  refine ⟨fun _ => rfl, by decide⟩

end SpeakUp
